import Mathlib

/-!
Verification of the multi-source LeetCode stats acquisition subsystem
(`app/leetcode_api.py`): response normalizers, circuit breaker,
single-source fetcher with retry/backoff, fallback chain resolver, and
the concurrent batch orchestrator.

The Python code is shallowly embedded:
* Python dicts become association lists `List (String × α)` with
  `pyGet` / `pyGetD` / `pyDictSet` mirroring `d.get(k)`, `d.get(k, v)`
  and `d[k] = v`.
* `time.time()` values are modelled as natural numbers (seconds for the
  circuit breaker); backoff sleep durations are tracked in milliseconds.
* Network I/O is modelled by response oracles: a function giving, per
  attempt (or per source), the response the network would deliver.
  `await` of a separately modelled coroutine becomes a function
  parameter describing that coroutine's observable behaviour.
* Exceptions become `Except`; JSON values become the `JValue` inductive.
* The cooperative single-threaded async model (no preemption between
  suspension points) lets mutation of the shared breaker be threaded as
  explicit state passing.
-/

set_option autoImplicit false

namespace LeetcodeApi

/-- Python `d.get(k)` on a dict modelled as an association list: the value
of the first matching key, or `none`. -/
def pyGet {α : Type} (d : List (String × α)) (k : String) : Option α :=
  match d with
  | [] => none
  | p :: rest => if p.1 == k then some p.2 else pyGet rest k

/-- Python `d.get(k, dflt)`. -/
def pyGetD {α : Type} (d : List (String × α)) (k : String) (dflt : α) : α :=
  (pyGet d k).getD dflt

/-- Python `d[k] = v`: overwrite the first binding of `k`, or append. -/
def pyDictSet {α : Type} (d : List (String × α)) (k : String) (v : α) :
    List (String × α) :=
  match d with
  | [] => [(k, v)]
  | p :: rest => if p.1 == k then (k, v) :: rest else p :: pyDictSet rest k v

/-! ## Configuration constants (`leetcode_api.py`, lines 20-28) -/

def CACHE_TTL : Nat := 300
def CONCURRENCY : Nat := 30
def TIMEOUT_SECONDS : Nat := 10
def MAX_RETRIES : Nat := 3
def CIRCUIT_BREAKER_THRESHOLD : Nat := 5
def CIRCUIT_BREAKER_TIMEOUT : Nat := 300

/-- Exponential backoff delays, in milliseconds (`[0.2, 0.4, 0.8]` seconds
in the source; scaled by 1000 to stay in `Nat`). -/
def BACKOFF_DELAYS : List Nat := [200, 400, 800]

/-! ## Circuit breaker (`leetcode_api.py`, lines 62-88) -/

/-- State of the `CircuitBreaker` dataclass: per-API failure counters and
last-failure timestamps (seconds). -/
structure CircuitBreaker where
  failures : List (String × Nat)
  last_failure_time : List (String × Nat)
  deriving DecidableEq, Repr

def CircuitBreaker.empty : CircuitBreaker := ⟨[], []⟩

/-- `record_failure`: increment the counter and stamp the current time
(`now` is the value `time.time()` returns at this call). -/
def CircuitBreaker.record_failure (cb : CircuitBreaker) (api_name : String)
    (now : Nat) : CircuitBreaker :=
  { failures := pyDictSet cb.failures api_name (pyGetD cb.failures api_name 0 + 1),
    last_failure_time := pyDictSet cb.last_failure_time api_name now }

/-- `record_success`: reset the failure counter (the last-failure timestamp
is left as is, exactly as in the source). -/
def CircuitBreaker.record_success (cb : CircuitBreaker) (api_name : String) :
    CircuitBreaker :=
  { cb with failures := pyDictSet cb.failures api_name 0 }

/-- `is_open`: besides the boolean, returns the possibly mutated state
(the source resets `failures[api_name]` to 0 when the timeout has passed).
Nat subtraction truncates at 0, which agrees with the Python comparison
`time.time() - last_failure > CIRCUIT_BREAKER_TIMEOUT` whenever it is
reachable (a negative difference and a truncated-to-0 difference both
fail the `> 300` test). -/
def CircuitBreaker.is_open (cb : CircuitBreaker) (api_name : String)
    (now : Nat) : Bool × CircuitBreaker :=
  let failures := pyGetD cb.failures api_name 0
  if failures < CIRCUIT_BREAKER_THRESHOLD then
    (false, cb)
  else
    let last_failure := pyGetD cb.last_failure_time api_name 0
    if now - last_failure > CIRCUIT_BREAKER_TIMEOUT then
      (false, { cb with failures := pyDictSet cb.failures api_name 0 })
    else
      (true, cb)

/-! ## Response normalizers (`leetcode_api.py`, lines 95-138)

The parsers receive the decoded JSON body (`await resp.json()`).  JSON
values are modelled by `JValue`; the body itself is an association list
of top-level keys.  A parser that would raise a Python exception returns
`.error` with the exception's name. -/

/-- Decoded JSON value. -/
inductive JValue : Type where
  | num (n : Int)
  | str (s : String)
  | bool (b : Bool)
  | null
  | arr (xs : List JValue)
  | obj (fields : List (String × JValue))

/-- Result of a normalizer: the source's error envelope (`{"error": msg}`)
or a complete four-field stat record (`{"easy", "medium", "hard", "total"}`).
There is no partially populated alternative, by construction. -/
inductive ParseRes : Type where
  | err (msg : JValue)
  | stats (easy medium hard total : JValue)

/-- `parse_alfa_response`.  The error branch evaluates
`data["errors"][0].get("message", "user_not_found")`, which raises unless
`data["errors"]` is indexable with a dict-like first element: an empty
list raises `IndexError`; a list whose head is not a dict (or a string,
whose `s[0]` is a one-character string) raises `AttributeError` at the
`.get` call; non-subscriptable values raise `TypeError`. -/
def parse_alfa_response (data : List (String × JValue)) : Except String ParseRes :=
  match pyGet data "errors" with
  | some (JValue.arr (JValue.obj fs :: _)) =>
      Except.ok (ParseRes.err (pyGetD fs "message" (JValue.str "user_not_found")))
  | some (JValue.arr (_ :: _)) => Except.error "AttributeError"
  | some (JValue.arr []) => Except.error "IndexError"
  | some (JValue.str s) =>
      Except.error (if s = "" then "IndexError" else "AttributeError")
  | some (JValue.obj _) => Except.error "KeyError"
  | some _ => Except.error "TypeError"
  | none =>
      Except.ok (ParseRes.stats
        (pyGetD data "easySolved" (JValue.num 0))
        (pyGetD data "mediumSolved" (JValue.num 0))
        (pyGetD data "hardSolved" (JValue.num 0))
        (pyGetD data "solvedProblem" (JValue.num 0)))

/-- `parse_stats_response`.  `data.get("status") == "error"` is true only
when the key holds exactly the string `"error"`; nothing here can raise. -/
def parse_stats_response (data : List (String × JValue)) : Except String ParseRes :=
  match pyGet data "status" with
  | some (JValue.str "error") =>
    Except.ok (ParseRes.err (pyGetD data "message" (JValue.str "user_not_found")))
  | _ =>
    Except.ok (ParseRes.stats
      (pyGetD data "easySolved" (JValue.num 0))
      (pyGetD data "mediumSolved" (JValue.num 0))
      (pyGetD data "hardSolved" (JValue.num 0))
      (pyGetD data "totalSolved" (JValue.num 0)))

/-- `parse_faisal_response`.  `"errors" in data or data.get("status") == "error"`;
nothing here can raise. -/
def parse_faisal_response (data : List (String × JValue)) : Except String ParseRes :=
  if (pyGet data "errors").isSome then
    Except.ok (ParseRes.err (JValue.str "user_not_found"))
  else match pyGet data "status" with
  | some (JValue.str "error") =>
    Except.ok (ParseRes.err (JValue.str "user_not_found"))
  | _ =>
    Except.ok (ParseRes.stats
      (pyGetD data "easySolved" (JValue.num 0))
      (pyGetD data "mediumSolved" (JValue.num 0))
      (pyGetD data "hardSolved" (JValue.num 0))
      (pyGetD data "totalSolved" (pyGetD data "solvedProblem" (JValue.num 0))))

/-- Property of a JSON value: if it is a number, that number is ≥ 0
(non-numeric values carry no sign). -/
def NonnegVal (v : JValue) : Prop :=
  ∀ n : Int, v = JValue.num n → 0 ≤ n

/-- Property of a payload: every top-level value satisfies `NonnegVal`. -/
def NonnegPayload (data : List (String × JValue)) : Prop :=
  ∀ p ∈ data, NonnegVal p.2

/-- Proviso under which the alfa parser's error branch cannot raise: an
`errors` key, when present, holds a nonempty array whose first element is
an object. -/
def alfaErrorsOk (data : List (String × JValue)) : Prop :=
  ∀ v, pyGet data "errors" = some v →
    ∃ fs rest, v = JValue.arr (JValue.obj fs :: rest)

/-! ## API source configuration (`leetcode_api.py`, lines 34-59) -/

/-- One entry of `API_SOURCES`. -/
structure Source where
  name : String
  base_url : String
  solved_endpoint : String
  parser : String
  deriving DecidableEq, Repr

def src_alfa_vercel : Source :=
  ⟨"alfa-leetcode-vercel", "https://alfa-leetcode-api-blush.vercel.app",
   "/{username}/solved", "alfa"⟩

def src_alfa_render : Source :=
  ⟨"alfa-leetcode-render", "https://alfa-leetcode-api.onrender.com",
   "/{username}/solved", "alfa"⟩

def src_faisal : Source :=
  ⟨"leetcode-api-faisalshohag", "https://leetcode-api-faisalshohag.vercel.app",
   "/{username}", "faisal"⟩

def src_stats : Source :=
  ⟨"leetcode-stats-api", "https://leetcode-stats-api.herokuapp.com",
   "/{username}", "stats"⟩

def API_SOURCES : List Source :=
  [src_alfa_vercel, src_alfa_render, src_faisal, src_stats]

/-! ## Single-source fetcher (`fetch_from_api`, lines 141-207)

After the typed parse (the normalizer layer above), what the retry loop
observes of one HTTP attempt is one of the cases of `AttemptResp`, and a
successful parse carries integer stat fields (`Stats`).  The network and
the JSON layer are abstracted into an oracle `resp : Nat → AttemptResp`
giving each attempt's outcome, and `tAt : Nat → Nat` gives the
`time.time()` value observed during attempt `k` (breaker bookkeeping). -/

/-- Integer stat fields of a successfully parsed response. -/
structure Stats where
  easy : Int
  medium : Int
  hard : Int
  total : Int
  deriving DecidableEq, Repr

/-- Outcome of the parser on an HTTP 200 body, at the typed layer used by
the fetch/fallback code: the error envelope or the stat fields. -/
inductive ParseOutcome : Type where
  | err (msg : String)
  | stats (r : Stats)
  deriving DecidableEq, Repr

/-- Observable outcome of one HTTP attempt inside the retry loop. -/
inductive AttemptResp : Type where
  /-- status 200 and the parser returned `p` -/
  | httpOk (p : ParseOutcome)
  /-- status 404 -/
  | http404
  /-- status in `[500, 600)` -/
  | http5xx
  /-- any other status -/
  | httpOther
  /-- `asyncio.TimeoutError`, `aiohttp.ClientError`, or any other
  exception (including a body that fails to decode or a parser raise) -/
  | exc
  deriving DecidableEq, Repr

/-- Result of `fetch_from_api`, instrumented with the sleeps performed
(milliseconds, in order) and the number of HTTP attempts made. -/
structure FetchOut where
  result : Option ParseOutcome
  st : CircuitBreaker
  sleeps : List Nat
  attempts : Nat
  deriving DecidableEq, Repr

/-- Body of the `for attempt in range(MAX_RETRIES)` loop of
`fetch_from_api`, over the list of remaining attempt indices.  On 5xx and
on exceptions the code records a failure and sleeps
`BACKOFF_DELAYS[attempt]` only when `attempt < MAX_RETRIES - 1` (there is
no sleep after the final attempt); falling off the loop returns `None`. -/
def fetchLoop (api_name : String) (resp : Nat → AttemptResp) (tAt : Nat → Nat) :
    List Nat → CircuitBreaker → FetchOut
  | [], cb => ⟨none, cb, [], 0⟩
  | attempt :: rest, cb =>
    match resp attempt with
    | AttemptResp.httpOk p =>
      match p with
      | ParseOutcome.stats r =>
        ⟨some (ParseOutcome.stats r), cb.record_success api_name, [], 1⟩
      | ParseOutcome.err e =>
        -- user does not exist: valid, breaker untouched
        ⟨some (ParseOutcome.err e), cb, [], 1⟩
    | AttemptResp.http404 =>
      ⟨some (ParseOutcome.err "user_not_found"), cb, [], 1⟩
    | AttemptResp.http5xx =>
      let cb1 := cb.record_failure api_name (tAt attempt)
      if attempt < MAX_RETRIES - 1 then
        let o := fetchLoop api_name resp tAt rest cb1
        ⟨o.result, o.st, BACKOFF_DELAYS.getD attempt 0 :: o.sleeps, o.attempts + 1⟩
      else
        let o := fetchLoop api_name resp tAt rest cb1
        ⟨o.result, o.st, o.sleeps, o.attempts + 1⟩
    | AttemptResp.httpOther =>
      ⟨none, cb.record_failure api_name (tAt attempt), [], 1⟩
    | AttemptResp.exc =>
      let cb1 := cb.record_failure api_name (tAt attempt)
      if attempt < MAX_RETRIES - 1 then
        let o := fetchLoop api_name resp tAt rest cb1
        ⟨o.result, o.st, BACKOFF_DELAYS.getD attempt 0 :: o.sleeps, o.attempts + 1⟩
      else
        let o := fetchLoop api_name resp tAt rest cb1
        ⟨o.result, o.st, o.sleeps, o.attempts + 1⟩

/-- `fetch_from_api`: check the breaker (whose check may itself reset the
counter), then run the retry loop over attempts `0, 1, ..., MAX_RETRIES-1`;
`now` is the `time.time()` value seen by `is_open`. -/
def fetch_from_api (api_name : String) (resp : Nat → AttemptResp)
    (tAt : Nat → Nat) (cb : CircuitBreaker) (now : Nat) : FetchOut :=
  let (isOpen, cb1) := cb.is_open api_name now
  if isOpen then ⟨none, cb1, [], 0⟩
  else fetchLoop api_name resp tAt (List.range MAX_RETRIES) cb1

/-! ## Python string helpers -/

/-- Python whitespace recognized by `str.strip()` (ASCII part). -/
def pyIsSpace (c : Char) : Bool :=
  c = ' ' ∨ c = '\t' ∨ c = '\n' ∨ c = '\r' ∨ c = '\x0b' ∨ c = '\x0c'

/-- Python `s.strip()`. -/
def pyStrip (s : String) : String :=
  String.mk (((s.toList.dropWhile pyIsSpace).reverse.dropWhile pyIsSpace).reverse)

/-- Python `s.lower()` (ASCII part). -/
def pyLower (s : String) : String :=
  String.mk (s.toList.map Char.toLower)

/-! ## Fallback chain resolver (`fetch_stats_with_fallback`, lines 210-245)

The call `await fetch_from_api(username, api_config, session)` is
abstracted as a state-threading function
`fetch : Source → CircuitBreaker → Option ParseOutcome × CircuitBreaker`
(its `Option ParseOutcome` is exactly the `result` field `fetch_from_api`
produces).  The resolver is instrumented with the list of source names it
actually invoked, so that "source X was never called" is expressible. -/

/-- Stat dict built by the resolver (`{"easy": ..., ..., "user_error": ...}`). -/
structure FBRes where
  easy : Int
  medium : Int
  hard : Int
  total : Int
  user_error : Option String
  deriving DecidableEq, Repr

/-- Zero record with no user error, returned for blank and sentinel
identities. -/
def zeroFresh : FBRes := ⟨0, 0, 0, 0, none⟩

/-- Conversion of a definitive per-source result to the resolver's dict:
`"error" in result` yields zeros plus `user_error`; otherwise the four
stat fields are copied. -/
def fbOfOutcome : ParseOutcome → FBRes
  | ParseOutcome.err e => ⟨0, 0, 0, 0, some e⟩
  | ParseOutcome.stats r => ⟨r.easy, r.medium, r.hard, r.total, none⟩

/-- The `for api_config in API_SOURCES` loop: first non-`None` result wins;
also returns the final breaker state and the names of sources invoked. -/
def fallbackLoop (fetch : Source → CircuitBreaker → Option ParseOutcome × CircuitBreaker) :
    List Source → CircuitBreaker → Option FBRes × CircuitBreaker × List String
  | [], cb => (none, cb, [])
  | s :: rest, cb =>
    match fetch s cb with
    | (some p, cb1) => (some (fbOfOutcome p), cb1, [s.name])
    | (none, cb1) =>
      let o := fallbackLoop fetch rest cb1
      (o.1, o.2.1, s.name :: o.2.2)

/-- `fetch_stats_with_fallback`: strip the username; blank or sentinel
("higher studies", case-insensitive) short-circuits with a zero `Fresh`
record; otherwise try the sources in order.  Returns
`((stats_dict?, is_fresh), final breaker, invoked source names)`. -/
def fetch_stats_with_fallback (username : String)
    (fetch : Source → CircuitBreaker → Option ParseOutcome × CircuitBreaker)
    (cb : CircuitBreaker) :
    (Option FBRes × Bool) × CircuitBreaker × List String :=
  let u := pyStrip username
  if u = "" ∨ pyLower u = "higher studies" then
    ((some zeroFresh, true), cb, [])
  else
    match fallbackLoop fetch API_SOURCES cb with
    | (some r, cb1, q) => ((some r, true), cb1, q)
    | (none, cb1, q) => ((none, false), cb1, q)

/-- Proposition: `fetch` returns `None` on every source of the list in
sequence, threading the breaker from `cb` to `cb'`. -/
def chainNone (fetch : Source → CircuitBreaker → Option ParseOutcome × CircuitBreaker) :
    List Source → CircuitBreaker → CircuitBreaker → Prop
  | [], cb, cb' => cb' = cb
  | s :: rest, cb, cb' =>
    (fetch s cb).1 = none ∧ chainNone fetch rest (fetch s cb).2 cb'

/-! ## Per-student fetch (`fetch_student_stats`, lines 248-302)

`section` is a Lean keyword, so the student's section parameter/field is
named `sect` here. -/

/-- Shape of the intermediate `result` dict inside `fetch_student_stats`:
every branch populates `easy/medium/hard/total/user_error`; `is_stale`
and `temp_error` are absent (i.e. take their `.get` defaults `False` /
`None`) except in the branch that sets them. -/
structure MidRes where
  easy : Int
  medium : Int
  hard : Int
  total : Int
  user_error : Option String
  is_stale : Bool
  temp_error : Option String
  deriving DecidableEq, Repr

/-- The resolver's fresh dict viewed as the intermediate `result`
(`is_stale` and `temp_error` keys absent). -/
def midOfFB (r : FBRes) : MidRes :=
  ⟨r.easy, r.medium, r.hard, r.total, r.user_error, false, none⟩

/-- The zero record with `temp_error="all_apis_failed"` used when every
source failed and no cached data exists. -/
def midAllFailed : MidRes := ⟨0, 0, 0, 0, none, false, some "all_apis_failed"⟩

/-- Python `'st' if year == 1 else 'nd' if year == 2 else 'rd' if year == 3 else 'th'`. -/
def yearSuffix (year : Int) : String :=
  if year = 1 then "st" else if year = 2 then "nd" else if year = 3 then "rd" else "th"

/-- Python `f"{year}{year_suffix} Year"`. -/
def yearStr (year : Int) : String :=
  toString year ++ yearSuffix year ++ " Year"

/-- Final per-student dict produced by `fetch_student_stats` (and by the
orchestrator's defensive handler). -/
structure StudentOut where
  roll_no : String
  actual_name : String
  username : String
  year : String
  year_display : String
  year_number : Int
  sect : String
  easy : Int
  medium : Int
  hard : Int
  total : Int
  fetch_error : Option String
  is_stale : Bool
  fetched_at : Nat
  deriving DecidableEq, Repr

/-- `fetch_student_stats`: resolve via the fallback chain; on `None`
(total exhaustion) degrade to the caller-supplied cached dict when it is
truthy (non-`None` and non-empty), else to the zero record; then build
the response dict.  `now` is the `time.time()` of `fetched_at`. -/
def fetch_student_stats (username name roll_no : String) (year : Int) (sect : String)
    (fetch : Source → CircuitBreaker → Option ParseOutcome × CircuitBreaker)
    (cb : CircuitBreaker) (cached_stats : Option (List (String × Int))) (now : Nat) :
    StudentOut × CircuitBreaker :=
  let o := fetch_stats_with_fallback username fetch cb
  let result : MidRes :=
    match o.1.1 with
    | some r => midOfFB r
    | none =>
      match cached_stats with
      | some l =>
        if l = [] then midAllFailed
        else
          ⟨pyGetD l "easy_solved" 0, pyGetD l "medium_solved" 0,
           pyGetD l "hard_solved" 0, pyGetD l "total_solved" 0, none, true, none⟩
      | none => midAllFailed
  let year_str := yearStr year
  let year_display := if sect = "" then year_str else year_str ++ " (" ++ sect ++ ")"
  ({ roll_no := roll_no, actual_name := name, username := username,
     year := year_str, year_display := year_display, year_number := year,
     sect := sect, easy := result.easy, medium := result.medium,
     hard := result.hard, total := result.total,
     fetch_error := result.user_error, is_stale := result.is_stale,
     fetched_at := now }, o.2.1)

/-! ## Concurrent batch orchestrator (`fetch_students_concurrent`, lines 305-361)

One input tuple `(username, name, roll, year, section[, student_id])`.
The per-student coroutine `fetch_student_stats` (whose execution may
raise) is abstracted as
`runFetch : Item → Option (List (String × Int)) → Except String StudentOut`,
where the second argument is the cached dict looked up for the item and
an `Except.error` is an unhandled exception escaping it.
`asyncio.gather` returns the results in the order the tasks were created
(one task per input, in input order), which under the cooperative model
makes the batch a per-item map. -/

/-- One input tuple; `student_id = none` models the 5-element form. -/
structure Item where
  username : String
  name : String
  roll : String
  year : Int
  sect : String
  student_id : Option Int
  deriving DecidableEq, Repr

/-- The zero-valued defensive record built in the `except` handler of
`guarded_fetch` (note its `year` / `year_display` are the bare
`f"{year}"`). -/
def defensiveRecord (item : Item) (now : Nat) : StudentOut :=
  { roll_no := item.roll, actual_name := item.name, username := item.username,
    year := toString item.year, year_display := toString item.year,
    year_number := item.year, sect := item.sect,
    easy := 0, medium := 0, hard := 0, total := 0,
    fetch_error := none, is_stale := false, fetched_at := now }

/-- `guarded_fetch`: look up the cached dict under the stripped, lowered
username, run the per-student fetch, and degrade any exception to the
defensive record. -/
def guarded_fetch
    (runFetch : Item → Option (List (String × Int)) → Except String StudentOut)
    (cached_stats_map : List (String × List (String × Int))) (now : Nat)
    (item : Item) : StudentOut :=
  let cached := pyGet cached_stats_map (pyLower (pyStrip item.username))
  match runFetch item cached with
  | Except.ok r => r
  | Except.error _ => defensiveRecord item now

/-- `fetch_students_concurrent`: empty batch short-circuits to `[]`;
otherwise every item is resolved by `guarded_fetch` and the results are
gathered in input order. -/
def fetch_students_concurrent (students_to_fetch : List Item)
    (cached_stats_map : Option (List (String × List (String × Int))))
    (runFetch : Item → Option (List (String × Int)) → Except String StudentOut)
    (now : Nat) : List StudentOut :=
  if students_to_fetch = [] then []
  else
    let cmap := cached_stats_map.getD []
    students_to_fetch.map (guarded_fetch runFetch cmap now)

/-! ## Helper lemmas -/

theorem pyGet_pyDictSet_same {α : Type} (d : List (String × α)) (k : String) (v : α) :
    pyGet (pyDictSet d k v) k = some v := by
  induction d with
  | nil => simp [pyGet, pyDictSet]
  | cons p rest ih =>
    by_cases h : p.1 == k
    · simp [pyGet, pyDictSet, h]
    · simp [pyGet, pyDictSet, h, ih]

theorem pyGetD_pyDictSet_same {α : Type} (d : List (String × α)) (k : String) (v dflt : α) :
    pyGetD (pyDictSet d k v) k dflt = v := by
  simp [pyGetD, pyGet_pyDictSet_same]

theorem pyGet_mem {α : Type} (d : List (String × α)) (k : String) (v : α)
    (h : pyGet d k = some v) : ∃ p ∈ d, p.2 = v := by
  induction d with
  | nil => simp [pyGet] at h
  | cons p rest ih =>
    by_cases hk : p.1 == k
    · simp [pyGet, hk] at h
      exact ⟨p, by simp, h⟩
    · simp [pyGet, hk] at h
      obtain ⟨q, hq, hv⟩ := ih h
      exact ⟨q, by simp [hq], hv⟩

/-- On a chain of `None` sources followed by a definitive one, the loop
stops at the definitive source: its converted result is returned, the
sources after it are never invoked, and the invoked names are exactly the
prefix. -/
theorem fallbackLoop_first_definitive
    (fetch : Source → CircuitBreaker → Option ParseOutcome × CircuitBreaker)
    (xs : List Source) (s : Source) (ys : List Source)
    (cb cb1 cb2 : CircuitBreaker) (p : ParseOutcome)
    (hxs : chainNone fetch xs cb cb1)
    (hs : fetch s cb1 = (some p, cb2)) :
    fallbackLoop fetch (xs ++ s :: ys) cb =
      (some (fbOfOutcome p), cb2, xs.map Source.name ++ [s.name]) := by
  induction xs generalizing cb with
  | nil =>
    obtain rfl : cb1 = cb := hxs
    simp [fallbackLoop, hs]
  | cons x xs ih =>
    obtain ⟨hx, hrest⟩ := hxs
    have hfx : fetch x cb = (none, (fetch x cb).2) := by
      cases hfetch : fetch x cb with
      | mk a b => simp_all
    simp only [List.cons_append, fallbackLoop]
    rw [hfx]
    simp only [List.append_eq]
    rw [ih ((fetch x cb).2) hrest]
    simp

/-- If every source in the list returns `None`, the loop returns `None`
with every name invoked. -/
theorem fallbackLoop_all_none
    (fetch : Source → CircuitBreaker → Option ParseOutcome × CircuitBreaker)
    (xs : List Source) (cb cb' : CircuitBreaker)
    (hxs : chainNone fetch xs cb cb') :
    fallbackLoop fetch xs cb = (none, cb', xs.map Source.name) := by
  induction xs generalizing cb with
  | nil =>
    obtain rfl : cb' = cb := hxs
    simp [fallbackLoop]
  | cons x xs ih =>
    obtain ⟨hx, hrest⟩ := hxs
    have hfx : fetch x cb = (none, (fetch x cb).2) := by
      cases hfetch : fetch x cb with
      | mk a b => simp_all
    simp only [fallbackLoop]
    rw [hfx]
    simp only [List.append_eq]
    rw [ih ((fetch x cb).2) hrest]
    simp

theorem record_failure_count (cb : CircuitBreaker) (api : String) (t : Nat) :
    pyGetD (cb.record_failure api t).failures api 0 = pyGetD cb.failures api 0 + 1 := by
  simp [CircuitBreaker.record_failure, pyGetD_pyDictSet_same]

theorem record_failure_time (cb : CircuitBreaker) (api : String) (t : Nat) :
    pyGetD (cb.record_failure api t).last_failure_time api 0 = t := by
  simp [CircuitBreaker.record_failure, pyGetD_pyDictSet_same]

theorem record_success_count (cb : CircuitBreaker) (api : String) :
    pyGetD (cb.record_success api).failures api 0 = 0 := by
  simp [CircuitBreaker.record_success, pyGetD_pyDictSet_same]

theorem is_open_of_lt_threshold (cb : CircuitBreaker) (api : String) (now : Nat)
    (h : pyGetD cb.failures api 0 < CIRCUIT_BREAKER_THRESHOLD) :
    cb.is_open api now = (false, cb) := by
  simp [CircuitBreaker.is_open, h]

/-! ## Claim theorems -/

/-- C3, counterexample: with the breaker for source `"A"` open (5 recorded
failures, last failure at time 0), at `now = 300` — when exactly
`CIRCUIT_BREAKER_TIMEOUT = 300` seconds have elapsed since the last
failure — `is_open` still returns `true`, not `false` as the claim states
(`time.time() - last_failure > CIRCUIT_BREAKER_TIMEOUT` is strict). -/
theorem circuit_breaker_exact_timeout_counterexample :
    ((⟨[("A", 5)], [("A", 0)]⟩ : CircuitBreaker).is_open "A" 300).1 = true ∧
    300 - 0 ≥ CIRCUIT_BREAKER_TIMEOUT := by
  constructor
  · rfl
  · decide

/-- C3 (amended): after exactly `CIRCUIT_BREAKER_THRESHOLD` (5) consecutive
recorded failures — and not after only 4 — `is_open` returns `true` while
less than `CIRCUIT_BREAKER_TIMEOUT` seconds have elapsed since the last
failure; after one recorded success at any point `is_open` returns `false`
and the failure counter is 0; and with an open breaker `is_open` returns
`false` once STRICTLY MORE THAN `CIRCUIT_BREAKER_TIMEOUT` (300) seconds
have elapsed since the last failure, resetting the failure counter to 0 at
that check (at exactly 300 elapsed seconds the breaker is still open). -/
theorem circuit_breaker_threshold_and_cooldown :
    (∀ (cb : CircuitBreaker) (api : String) (t1 t2 t3 t4 t5 now : Nat),
      pyGetD cb.failures api 0 = 0 →
      pyGetD (((((cb.record_failure api t1).record_failure api t2).record_failure
          api t3).record_failure api t4).record_failure api t5).failures api 0 =
        CIRCUIT_BREAKER_THRESHOLD ∧
      (((((cb.record_failure api t1).record_failure api t2).record_failure
          api t3).record_failure api t4).is_open api now).1 = false ∧
      (now - t5 < CIRCUIT_BREAKER_TIMEOUT →
        ((((((cb.record_failure api t1).record_failure api t2).record_failure
            api t3).record_failure api t4).record_failure api t5).is_open
            api now).1 = true)) ∧
    (∀ (cb : CircuitBreaker) (api : String) (now : Nat),
      ((cb.record_success api).is_open api now).1 = false ∧
      pyGetD (cb.record_success api).failures api 0 = 0) ∧
    (∀ (cb : CircuitBreaker) (api : String) (now : Nat),
      CIRCUIT_BREAKER_THRESHOLD ≤ pyGetD cb.failures api 0 →
      CIRCUIT_BREAKER_TIMEOUT < now - pyGetD cb.last_failure_time api 0 →
      (cb.is_open api now).1 = false ∧
      pyGetD (cb.is_open api now).2.failures api 0 = 0) := by
  refine ⟨?_, ?_, ?_⟩
  · intro cb api t1 t2 t3 t4 t5 now h0
    have c1 := record_failure_count cb api t1
    have c2 := record_failure_count (cb.record_failure api t1) api t2
    have c3 := record_failure_count ((cb.record_failure api t1).record_failure api t2) api t3
    have c4 := record_failure_count
      (((cb.record_failure api t1).record_failure api t2).record_failure api t3) api t4
    have c5 := record_failure_count
      ((((cb.record_failure api t1).record_failure api t2).record_failure api t3).record_failure
        api t4) api t5
    rw [c4, c3, c2, c1, h0] at c5
    have c4' : pyGetD ((((cb.record_failure api t1).record_failure api t2).record_failure
        api t3).record_failure api t4).failures api 0 = 4 := by
      rw [c4, c3, c2, c1, h0]
    have tm5 := record_failure_time
      ((((cb.record_failure api t1).record_failure api t2).record_failure api t3).record_failure
        api t4) api t5
    refine ⟨by rw [c5]; rfl, ?_, ?_⟩
    · simp [CircuitBreaker.is_open, c4', CIRCUIT_BREAKER_THRESHOLD]
    · intro hlt
      have hnot : ¬ (now - t5 > CIRCUIT_BREAKER_TIMEOUT) := by omega
      simp [CircuitBreaker.is_open, c5, tm5, CIRCUIT_BREAKER_THRESHOLD, hnot]
  · intro cb api now
    refine ⟨?_, record_success_count cb api⟩
    have h := record_success_count cb api
    simp [CircuitBreaker.is_open, h, CIRCUIT_BREAKER_THRESHOLD]
  · intro cb api now h5 ht
    have hnotlt : ¬ (pyGetD cb.failures api 0 < CIRCUIT_BREAKER_THRESHOLD) := by omega
    constructor
    · simp [CircuitBreaker.is_open, hnotlt, ht]
    · simp [CircuitBreaker.is_open, hnotlt, ht, pyGetD_pyDictSet_same]

/-- C3, witness: threshold reached through five concrete failures, a
success closing the breaker, and a strict cool-down pass. -/
theorem circuit_breaker_threshold_and_cooldown_witness :
    pyGetD (((((CircuitBreaker.empty.record_failure "A" 1).record_failure "A" 2).record_failure
        "A" 3).record_failure "A" 4).record_failure "A" 5).failures "A" 0 =
      CIRCUIT_BREAKER_THRESHOLD ∧
    ((((((CircuitBreaker.empty.record_failure "A" 1).record_failure "A" 2).record_failure
        "A" 3).record_failure "A" 4).record_failure "A" 5).is_open "A" 10).1 = true ∧
    ((CircuitBreaker.empty.record_success "A").is_open "A" 0).1 = false ∧
    ((⟨[("A", 5)], [("A", 0)]⟩ : CircuitBreaker).is_open "A" 301).1 = false := by
  have h := circuit_breaker_threshold_and_cooldown
  have h1 := h.1 CircuitBreaker.empty "A" 1 2 3 4 5 10 (by decide)
  have h2 := h.2.1 CircuitBreaker.empty "A" 0
  have h3 := h.2.2 (⟨[("A", 5)], [("A", 0)]⟩ : CircuitBreaker) "A" 301
    (by decide) (by decide)
  exact ⟨h1.1, h1.2.2 (by decide), h2.1, h3.1⟩

/-- C5, counterexample: with a closed breaker and a source answering
HTTP 503 on all three attempts, the fetcher sleeps only
`[0.2s, 0.4s]` (here in milliseconds) — there is no sleep after the final
attempt — so the cumulative sleep is 0.6s, not the 0.2+0.4+0.8 = 1.4s the
claim states. -/
theorem fetch_backoff_counterexample :
    (fetch_from_api "A" (fun _ => AttemptResp.http5xx) (fun _ => 0)
        CircuitBreaker.empty 0).sleeps = [200, 400] ∧
    200 + 400 ≠ 200 + 400 + 800 := by
  constructor
  · rfl
  · decide

/-- C5 (amended): if a source returns HTTP 503 on all three attempts with
a closed breaker, `fetch_from_api` returns null after exactly
`MAX_RETRIES` (3) attempts, sleeping `BACKOFF_DELAYS[0]` and
`BACKOFF_DELAYS[1]` only (cumulative ≈ 0.2+0.4 = 0.6 seconds — the
final attempt is not followed by a sleep), and the source's breaker
failure count increases by 3. -/
theorem fetch_all_5xx_returns_null (api : String) (tAt : Nat → Nat)
    (cb : CircuitBreaker) (now : Nat)
    (hclosed : (cb.is_open api now).1 = false) :
    fetch_from_api api (fun _ => AttemptResp.http5xx) tAt cb now =
      ⟨none,
       (((cb.is_open api now).2.record_failure api (tAt 0)).record_failure api
         (tAt 1)).record_failure api (tAt 2),
       [200, 400], MAX_RETRIES⟩ ∧
    pyGetD (fetch_from_api api (fun _ => AttemptResp.http5xx) tAt cb now).st.failures
        api 0 =
      pyGetD (cb.is_open api now).2.failures api 0 + 3 := by
  have hsplit : cb.is_open api now = (false, (cb.is_open api now).2) := by
    cases h : cb.is_open api now with
    | mk a b => simp_all
  have hmain : fetch_from_api api (fun _ => AttemptResp.http5xx) tAt cb now =
      ⟨none,
       (((cb.is_open api now).2.record_failure api (tAt 0)).record_failure api
         (tAt 1)).record_failure api (tAt 2),
       [200, 400], MAX_RETRIES⟩ := by
    rw [fetch_from_api, hsplit]
    have hr : List.range MAX_RETRIES = [0, 1, 2] := rfl
    rw [hr]
    simp [fetchLoop, MAX_RETRIES, BACKOFF_DELAYS]
  refine ⟨hmain, ?_⟩
  rw [hmain]
  simp only [record_failure_count]

/-- C5, witness: concrete all-503 run from the fresh breaker. -/
theorem fetch_all_5xx_returns_null_witness :
    fetch_from_api "A" (fun _ => AttemptResp.http5xx) (fun _ => 7)
      CircuitBreaker.empty 0 =
      ⟨none,
       ((((CircuitBreaker.empty.is_open "A" 0).2.record_failure "A" 7).record_failure
         "A" 7).record_failure "A" 7),
       [200, 400], MAX_RETRIES⟩ ∧
    pyGetD (fetch_from_api "A" (fun _ => AttemptResp.http5xx) (fun _ => 7)
        CircuitBreaker.empty 0).st.failures "A" 0 =
      pyGetD (CircuitBreaker.empty.is_open "A" 0).2.failures "A" 0 + 3 :=
  fetch_all_5xx_returns_null "A" (fun _ => 7) CircuitBreaker.empty 0 (by rfl)

/-- C6 (confirmed): an attempt answered by HTTP 404, or by HTTP 200 whose
body the normalizer maps to a "user not found" error, ends the fetch with
that outcome and leaves the circuit-breaker state (failure counter and
last-failure timestamp) exactly as it was — at whatever attempt index it
occurs in the retry loop, and for the whole of `fetch_from_api` when the
breaker check itself passes without mutating. -/
theorem confirmed_absence_preserves_breaker (api : String)
    (resp : Nat → AttemptResp) (tAt : Nat → Nat) (cb : CircuitBreaker)
    (now a : Nat) (rest : List Nat) (e : String)
    (hclosed : cb.is_open api now = (false, cb)) :
    (resp a = AttemptResp.http404 →
      fetchLoop api resp tAt (a :: rest) cb =
        ⟨some (ParseOutcome.err "user_not_found"), cb, [], 1⟩) ∧
    (resp a = AttemptResp.httpOk (ParseOutcome.err e) →
      fetchLoop api resp tAt (a :: rest) cb =
        ⟨some (ParseOutcome.err e), cb, [], 1⟩) ∧
    (resp 0 = AttemptResp.http404 →
      fetch_from_api api resp tAt cb now =
        ⟨some (ParseOutcome.err "user_not_found"), cb, [], 1⟩) ∧
    (resp 0 = AttemptResp.httpOk (ParseOutcome.err e) →
      fetch_from_api api resp tAt cb now =
        ⟨some (ParseOutcome.err e), cb, [], 1⟩) := by
  have hr : List.range MAX_RETRIES = 0 :: [1, 2] := rfl
  refine ⟨?_, ?_, ?_, ?_⟩
  · intro h
    simp [fetchLoop, h]
  · intro h
    simp [fetchLoop, h]
  · intro h
    rw [fetch_from_api, hclosed]
    simp [hr, fetchLoop, h]
  · intro h
    rw [fetch_from_api, hclosed]
    simp [hr, fetchLoop, h]

/-- C6, witness: a 404 on the first attempt and a 200 "user not found"
body, each against the fresh breaker, leave the state untouched. -/
theorem confirmed_absence_preserves_breaker_witness :
    fetch_from_api "A" (fun _ => AttemptResp.http404) (fun _ => 0)
      CircuitBreaker.empty 0 =
      ⟨some (ParseOutcome.err "user_not_found"), CircuitBreaker.empty, [], 1⟩ ∧
    fetch_from_api "A" (fun _ => AttemptResp.httpOk (ParseOutcome.err "ghost"))
      (fun _ => 0) CircuitBreaker.empty 0 =
      ⟨some (ParseOutcome.err "ghost"), CircuitBreaker.empty, [], 1⟩ := by
  have h1 := confirmed_absence_preserves_breaker "A" (fun _ => AttemptResp.http404)
    (fun _ => 0) CircuitBreaker.empty 0 0 [1, 2] "ghost" (by rfl)
  have h2 := confirmed_absence_preserves_breaker "A"
    (fun _ => AttemptResp.httpOk (ParseOutcome.err "ghost"))
    (fun _ => 0) CircuitBreaker.empty 0 0 [1, 2] "ghost" (by rfl)
  exact ⟨h1.2.2.1 rfl, h2.2.2.2 rfl⟩

/-- If the username survives the blank/sentinel check and every configured
source returns `None`, the resolver returns `(None, False)` after invoking
every source, with the final threaded breaker state. -/
theorem fetch_stats_with_fallback_exhausted (u : String)
    (fetch : Source → CircuitBreaker → Option ParseOutcome × CircuitBreaker)
    (cb cb' : CircuitBreaker)
    (hu1 : pyStrip u ≠ "") (hu2 : pyLower (pyStrip u) ≠ "higher studies")
    (hchain : chainNone fetch API_SOURCES cb cb') :
    fetch_stats_with_fallback u fetch cb =
      ((none, false), cb', API_SOURCES.map Source.name) := by
  simp only [fetch_stats_with_fallback]
  rw [if_neg (not_or.mpr ⟨hu1, hu2⟩)]
  rw [fallbackLoop_all_none fetch API_SOURCES cb cb' hchain]

/-- C4 (confirmed): for a non-blank, non-sentinel identity, whenever the
configured source order splits as `xs ++ s :: ys` with every source of
`xs` returning null and `s` returning a definitive outcome, the resolver
returns `s`'s converted result as fresh and the invoked sources are
exactly `xs` then `s` — no source of `ys` is ever invoked.  In
particular, with `API_SOURCES = [A, B, C, D]`, if `A` returns null and
`B` returns `Fresh` stats, `B`'s result is returned and `C`, `D` are
never invoked (see the witness). -/
theorem fallback_first_definitive (u : String)
    (fetch : Source → CircuitBreaker → Option ParseOutcome × CircuitBreaker)
    (xs : List Source) (s : Source) (ys : List Source)
    (cb cb1 cb2 : CircuitBreaker) (p : ParseOutcome)
    (hu1 : pyStrip u ≠ "") (hu2 : pyLower (pyStrip u) ≠ "higher studies")
    (hsrc : API_SOURCES = xs ++ s :: ys)
    (hxs : chainNone fetch xs cb cb1)
    (hs : fetch s cb1 = (some p, cb2)) :
    fetch_stats_with_fallback u fetch cb =
      ((some (fbOfOutcome p), true), cb2, xs.map Source.name ++ [s.name]) := by
  simp only [fetch_stats_with_fallback]
  rw [if_neg (not_or.mpr ⟨hu1, hu2⟩)]
  rw [hsrc, fallbackLoop_first_definitive fetch xs s ys cb cb1 cb2 p hxs hs]

/-- C4, witness: source A (`alfa-leetcode-vercel`) returns null, source B
(`alfa-leetcode-render`) returns fresh stats `(1, 2, 3, 6)`: the resolver
returns B's stats and neither C (`leetcode-api-faisalshohag`) nor D
(`leetcode-stats-api`) appears among the invoked sources. -/
theorem fallback_first_definitive_witness :
    fetch_stats_with_fallback "alice"
      (fun s cb => if s.name = "alfa-leetcode-vercel" then (none, cb)
        else (some (ParseOutcome.stats ⟨1, 2, 3, 6⟩), cb))
      CircuitBreaker.empty =
      ((some (fbOfOutcome (ParseOutcome.stats ⟨1, 2, 3, 6⟩)), true),
       CircuitBreaker.empty,
       [src_alfa_vercel].map Source.name ++ [src_alfa_render.name]) ∧
    src_faisal.name ∉ [src_alfa_vercel].map Source.name ++ [src_alfa_render.name] ∧
    src_stats.name ∉ [src_alfa_vercel].map Source.name ++ [src_alfa_render.name] := by
  refine ⟨?_, by decide, by decide⟩
  exact fallback_first_definitive "alice"
    (fun s cb => if s.name = "alfa-leetcode-vercel" then (none, cb)
      else (some (ParseOutcome.stats ⟨1, 2, 3, 6⟩), cb))
    [src_alfa_vercel] src_alfa_render [src_faisal, src_stats]
    CircuitBreaker.empty CircuitBreaker.empty CircuitBreaker.empty
    (ParseOutcome.stats ⟨1, 2, 3, 6⟩)
    (by decide) (by decide) rfl ⟨rfl, rfl⟩ rfl

/-- C7 (confirmed): any identity whose stripped, lowered form equals the
"no account" sentinel `"higher studies"` makes the resolver return the
fresh all-zero record (`easy = medium = hard = total = 0`, `user_error =
None`) as definitive, with no source invoked and the breaker untouched. -/
theorem sentinel_short_circuit (u : String)
    (fetch : Source → CircuitBreaker → Option ParseOutcome × CircuitBreaker)
    (cb : CircuitBreaker)
    (h : pyLower (pyStrip u) = "higher studies") :
    fetch_stats_with_fallback u fetch cb = ((some zeroFresh, true), cb, []) ∧
    zeroFresh.easy = 0 ∧ zeroFresh.medium = 0 ∧ zeroFresh.hard = 0 ∧
    zeroFresh.total = 0 ∧ zeroFresh.user_error = none := by
  refine ⟨?_, rfl, rfl, rfl, rfl, rfl⟩
  simp only [fetch_stats_with_fallback]
  rw [if_pos (Or.inr h)]

/-- C7, witness: `"  Higher STUDIES "` (whitespace and mixed case) short
circuits with the zero record; the source oracle would have returned real
stats had it ever been invoked. -/
theorem sentinel_short_circuit_witness :
    fetch_stats_with_fallback "  Higher STUDIES "
      (fun _ cb => (some (ParseOutcome.stats ⟨9, 9, 9, 27⟩), cb))
      CircuitBreaker.empty =
      ((some zeroFresh, true), CircuitBreaker.empty, []) :=
  (sentinel_short_circuit "  Higher STUDIES "
    (fun _ cb => (some (ParseOutcome.stats ⟨9, 9, 9, 27⟩), cb))
    CircuitBreaker.empty (by decide)).1

/-- C10 (confirmed): an identity that is empty or whitespace-only resolves
to exactly the same definitive fresh all-zero record as the sentinel path
(`zeroFresh`, with `user_error = None`), with no source invoked and no
breaker change — blank identities are silently zero-solved, not
`NotFound` or `Unknown`. -/
theorem blank_identity_zero (u : String)
    (fetch : Source → CircuitBreaker → Option ParseOutcome × CircuitBreaker)
    (cb : CircuitBreaker)
    (h : pyStrip u = "") :
    fetch_stats_with_fallback u fetch cb = ((some zeroFresh, true), cb, []) ∧
    zeroFresh.user_error = none := by
  refine ⟨?_, rfl⟩
  simp only [fetch_stats_with_fallback]
  rw [if_pos (Or.inl h)]

/-- C10, witness: the whitespace-only identity `"   "`. -/
theorem blank_identity_zero_witness :
    fetch_stats_with_fallback "   "
      (fun _ cb => (some (ParseOutcome.stats ⟨9, 9, 9, 27⟩), cb))
      CircuitBreaker.empty =
      ((some zeroFresh, true), CircuitBreaker.empty, []) :=
  (blank_identity_zero "   "
    (fun _ cb => (some (ParseOutcome.stats ⟨9, 9, 9, 27⟩), cb))
    CircuitBreaker.empty (by decide)).1

/-- C2 (confirmed): when every configured source returns null for a
non-blank, non-sentinel identity, `fetch_student_stats` outputs, with a
truthy caller-supplied last-known record, that record's values with
`is_stale = true` and `fetch_error = None`; with no record supplied, the
all-zero record with `is_stale = false` and `fetch_error = None`. -/
theorem student_stats_degradation (u name roll : String) (year : Int) (sect : String)
    (fetch : Source → CircuitBreaker → Option ParseOutcome × CircuitBreaker)
    (cb cb' : CircuitBreaker) (now : Nat)
    (hu1 : pyStrip u ≠ "") (hu2 : pyLower (pyStrip u) ≠ "higher studies")
    (hchain : chainNone fetch API_SOURCES cb cb') :
    (∀ l : List (String × Int), l ≠ [] →
      (fetch_student_stats u name roll year sect fetch cb (some l) now).1.easy =
          pyGetD l "easy_solved" 0 ∧
      (fetch_student_stats u name roll year sect fetch cb (some l) now).1.medium =
          pyGetD l "medium_solved" 0 ∧
      (fetch_student_stats u name roll year sect fetch cb (some l) now).1.hard =
          pyGetD l "hard_solved" 0 ∧
      (fetch_student_stats u name roll year sect fetch cb (some l) now).1.total =
          pyGetD l "total_solved" 0 ∧
      (fetch_student_stats u name roll year sect fetch cb (some l) now).1.is_stale =
          true ∧
      (fetch_student_stats u name roll year sect fetch cb (some l) now).1.fetch_error =
          none) ∧
    ((fetch_student_stats u name roll year sect fetch cb none now).1.easy = 0 ∧
     (fetch_student_stats u name roll year sect fetch cb none now).1.medium = 0 ∧
     (fetch_student_stats u name roll year sect fetch cb none now).1.hard = 0 ∧
     (fetch_student_stats u name roll year sect fetch cb none now).1.total = 0 ∧
     (fetch_student_stats u name roll year sect fetch cb none now).1.is_stale = false ∧
     (fetch_student_stats u name roll year sect fetch cb none now).1.fetch_error =
         none) := by
  have hex := fetch_stats_with_fallback_exhausted u fetch cb cb' hu1 hu2 hchain
  constructor
  · intro l hl
    simp only [fetch_student_stats, hex]
    simp [hl]
  · simp only [fetch_student_stats, hex]
    simp [midAllFailed]

/-- C2, witness: all four sources null for `"alice"`; with a concrete
cached record `(7, 8, 9, 30)` the output is stale with those values, and
with no cached record it is the fresh-flagged zero record. -/
theorem student_stats_degradation_witness :
    ((fetch_student_stats "alice" "Alice" "R1" 2 "A" (fun _ cb => (none, cb))
        CircuitBreaker.empty
        (some [("easy_solved", 7), ("medium_solved", 8), ("hard_solved", 9),
               ("total_solved", 30)]) 42).1.easy = 7 ∧
     (fetch_student_stats "alice" "Alice" "R1" 2 "A" (fun _ cb => (none, cb))
        CircuitBreaker.empty
        (some [("easy_solved", 7), ("medium_solved", 8), ("hard_solved", 9),
               ("total_solved", 30)]) 42).1.is_stale = true ∧
     (fetch_student_stats "alice" "Alice" "R1" 2 "A" (fun _ cb => (none, cb))
        CircuitBreaker.empty
        (some [("easy_solved", 7), ("medium_solved", 8), ("hard_solved", 9),
               ("total_solved", 30)]) 42).1.fetch_error = none) ∧
    ((fetch_student_stats "alice" "Alice" "R1" 2 "A" (fun _ cb => (none, cb))
        CircuitBreaker.empty none 42).1.easy = 0 ∧
     (fetch_student_stats "alice" "Alice" "R1" 2 "A" (fun _ cb => (none, cb))
        CircuitBreaker.empty none 42).1.is_stale = false ∧
     (fetch_student_stats "alice" "Alice" "R1" 2 "A" (fun _ cb => (none, cb))
        CircuitBreaker.empty none 42).1.fetch_error = none) := by
  have h := student_stats_degradation "alice" "Alice" "R1" 2 "A"
    (fun _ cb => (none, cb)) CircuitBreaker.empty CircuitBreaker.empty 42
    (by decide) (by decide) ⟨rfl, rfl, rfl, rfl, rfl⟩
  have h1 := h.1 [("easy_solved", 7), ("medium_solved", 8), ("hard_solved", 9),
    ("total_solved", 30)] (by decide)
  exact ⟨⟨h1.1.trans (by decide), h1.2.2.2.2.1, h1.2.2.2.2.2⟩,
         ⟨h.2.1, h.2.2.2.2.2.1, h.2.2.2.2.2.2⟩⟩

/-- C1 (confirmed): the batch result has exactly one entry per input
tuple, at the input's position (entry `i` is the guarded resolution of
input `i`, so order is preserved and nothing is dropped); when an
identity's resolution raises, its guarded entry is the zero-valued
defensive record (`easy = medium = hard = total = 0`, `fetch_error =
None`) rather than a missing or failed entry. -/
theorem batch_preserves_order (students : List Item)
    (cmap : Option (List (String × List (String × Int))))
    (runFetch : Item → Option (List (String × Int)) → Except String StudentOut)
    (now : Nat) :
    (fetch_students_concurrent students cmap runFetch now).length = students.length ∧
    (∀ i : Nat,
      List.get? (fetch_students_concurrent students cmap runFetch now) i =
        Option.map (guarded_fetch runFetch (cmap.getD []) now) (List.get? students i)) ∧
    (∀ (item : Item) (e : String),
      runFetch item (pyGet (cmap.getD []) (pyLower (pyStrip item.username))) =
          Except.error e →
      guarded_fetch runFetch (cmap.getD []) now item = defensiveRecord item now) ∧
    (∀ item : Item,
      (defensiveRecord item now).easy = 0 ∧ (defensiveRecord item now).medium = 0 ∧
      (defensiveRecord item now).hard = 0 ∧ (defensiveRecord item now).total = 0 ∧
      (defensiveRecord item now).fetch_error = none) := by
  refine ⟨?_, ?_, ?_, ?_⟩
  · by_cases h : students = [] <;> simp [fetch_students_concurrent, h]
  · intro i
    by_cases h : students = [] <;> simp [fetch_students_concurrent, h]
  · intro item e he
    simp [guarded_fetch, he]
  · intro item
    exact ⟨rfl, rfl, rfl, rfl, rfl⟩

/-- C1, witness: a two-student batch where resolving `"bob"` raises: the
output still has 2 entries and bob's entry is the defensive record. -/
theorem batch_preserves_order_witness :
    (fetch_students_concurrent
        [⟨"alice", "Alice", "R1", 2, "A", none⟩, ⟨"bob", "Bob", "R2", 3, "B", some 5⟩]
        none
        (fun it _ => if it.username = "bob" then Except.error "boom"
          else Except.ok (defensiveRecord it 0)) 9).length = 2 ∧
    List.get? (fetch_students_concurrent
        [⟨"alice", "Alice", "R1", 2, "A", none⟩, ⟨"bob", "Bob", "R2", 3, "B", some 5⟩]
        none
        (fun it _ => if it.username = "bob" then Except.error "boom"
          else Except.ok (defensiveRecord it 0)) 9) 1 =
      some (defensiveRecord ⟨"bob", "Bob", "R2", 3, "B", some 5⟩ 9) := by
  have h := batch_preserves_order
    [⟨"alice", "Alice", "R1", 2, "A", none⟩, ⟨"bob", "Bob", "R2", 3, "B", some 5⟩]
    none
    (fun it _ => if it.username = "bob" then Except.error "boom"
      else Except.ok (defensiveRecord it 0)) 9
  refine ⟨h.1, ?_⟩
  rw [h.2.1 1]
  have h3 := h.2.2.1 ⟨"bob", "Bob", "R2", 3, "B", some 5⟩ "boom" rfl
  simp only [List.get?, Option.map_some]
  simpa using h3

theorem NonnegVal_zero : NonnegVal (JValue.num 0) := by
  intro n hn
  cases hn
  exact le_refl 0

theorem NonnegVal_pyGetD (data : List (String × JValue)) (k : String) (dflt : JValue)
    (hd : NonnegVal dflt) (h : NonnegPayload data) :
    NonnegVal (pyGetD data k dflt) := by
  unfold pyGetD
  cases hget : pyGet data k with
  | none => simpa using hd
  | some v =>
    obtain ⟨p, hp, hv⟩ := pyGet_mem data k v hget
    simpa using hv ▸ h p hp

theorem pyGetD_int_nonneg (l : List (String × Int)) (k : String)
    (h : ∀ p ∈ l, 0 ≤ p.2) : 0 ≤ pyGetD l k 0 := by
  unfold pyGetD
  cases hget : pyGet l k with
  | none => simp
  | some v =>
    obtain ⟨p, hp, hv⟩ := pyGet_mem l k v hget
    simpa using hv ▸ h p hp

/-- C9, counterexample: `parse_alfa_response` raises (`IndexError` at
`data["errors"][0]`) on the decoded JSON body `{"errors": []}`, so
normalization does not return without raising for every decoded body. -/
theorem parse_alfa_raises_counterexample :
    parse_alfa_response [("errors", JValue.arr [])] = Except.error "IndexError" := rfl

/-- C9 (amended): `parse_stats_response` and `parse_faisal_response`
return without raising on every decoded body, and `parse_alfa_response`
does so provided its `errors` key, when present, holds a nonempty array
of objects (on `{"errors": []}` and relatives it raises); absent numeric
fields default to 0 and an absent error marker is treated as "not an
error"; the output is never partially populated: always either an error
signal or a record with all four stat fields. -/
theorem parsers_total_amended :
    (∀ data, alfaErrorsOk data → ∃ r, parse_alfa_response data = Except.ok r) ∧
    (∀ data, ∃ r, parse_stats_response data = Except.ok r) ∧
    (∀ data, ∃ r, parse_faisal_response data = Except.ok r) ∧
    (∀ data, pyGet data "errors" = none → pyGet data "easySolved" = none →
      ∃ m h t, parse_alfa_response data =
        Except.ok (ParseRes.stats (JValue.num 0) m h t)) ∧
    (∀ data, pyGet data "errors" = none →
      ∃ e m h t, parse_alfa_response data = Except.ok (ParseRes.stats e m h t)) ∧
    (∀ data r, parse_alfa_response data = Except.ok r →
      (∃ msg, r = ParseRes.err msg) ∨ ∃ e m h t, r = ParseRes.stats e m h t) := by
  refine ⟨?_, ?_, ?_, ?_, ?_, ?_⟩
  · intro data hok
    cases hget : pyGet data "errors" with
    | none =>
      exact ⟨ParseRes.stats (pyGetD data "easySolved" (JValue.num 0))
        (pyGetD data "mediumSolved" (JValue.num 0))
        (pyGetD data "hardSolved" (JValue.num 0))
        (pyGetD data "solvedProblem" (JValue.num 0)),
        by simp [parse_alfa_response, hget]⟩
    | some v =>
      obtain ⟨fs, rest, rfl⟩ := hok v hget
      exact ⟨ParseRes.err (pyGetD fs "message" (JValue.str "user_not_found")),
        by simp [parse_alfa_response, hget]⟩
  · intro data
    unfold parse_stats_response
    split
    · exact ⟨_, rfl⟩
    · exact ⟨_, rfl⟩
  · intro data
    unfold parse_faisal_response
    split
    · exact ⟨_, rfl⟩
    · split
      · exact ⟨_, rfl⟩
      · exact ⟨_, rfl⟩
  · intro data h1 h2
    refine ⟨pyGetD data "mediumSolved" (JValue.num 0),
      pyGetD data "hardSolved" (JValue.num 0),
      pyGetD data "solvedProblem" (JValue.num 0), ?_⟩
    simp [parse_alfa_response, h1, pyGetD, h2]
  · intro data h1
    refine ⟨pyGetD data "easySolved" (JValue.num 0),
      pyGetD data "mediumSolved" (JValue.num 0),
      pyGetD data "hardSolved" (JValue.num 0),
      pyGetD data "solvedProblem" (JValue.num 0), ?_⟩
    simp [parse_alfa_response, h1]
  · intro data r _
    cases r with
    | err msg => exact Or.inl ⟨msg, rfl⟩
    | stats e m h t => exact Or.inr ⟨e, m, h, t, rfl⟩

/-- C9, witness: a well-formed error envelope, two empty bodies, and the
all-defaults alfa record. -/
theorem parsers_total_amended_witness :
    (∃ r, parse_alfa_response [("errors", JValue.arr [JValue.obj []])] =
      Except.ok r) ∧
    (∃ r, parse_stats_response [] = Except.ok r) ∧
    (∃ r, parse_faisal_response [] = Except.ok r) ∧
    (∃ m h t, parse_alfa_response [] =
      Except.ok (ParseRes.stats (JValue.num 0) m h t)) := by
  have hp := parsers_total_amended
  refine ⟨hp.1 _ ?_, hp.2.1 [], hp.2.2.1 [], hp.2.2.2.1 [] rfl rfl⟩
  intro v hv
  have h2 : some (JValue.arr [JValue.obj []]) = some v := hv
  injection h2 with h3
  exact ⟨[], [], h3.symm⟩

/-- C8, counterexample: the payload `{"easySolved": -1}` is normalized by
`parse_alfa_response` to a record whose `easy` field is the negative
number -1 — parsers pass source values through without clamping, so not
every produced record has all fields ≥ 0. -/
theorem parser_negative_passthrough_counterexample :
    parse_alfa_response [("easySolved", JValue.num (-1))] =
      Except.ok (ParseRes.stats (JValue.num (-1)) (JValue.num 0) (JValue.num 0)
        (JValue.num 0)) ∧
    (-1 : Int) < 0 := by
  exact ⟨rfl, by decide⟩

/-- C8 (amended): every stat record the core produces has all four fields
≥ 0 PROVIDED the numeric values it is built from are ≥ 0: each parser
maps a payload whose numeric values are all ≥ 0 to a record whose numeric
fields are all ≥ 0 (absent fields default to 0); the cache-reconstructed
record of `fetch_student_stats` has fields ≥ 0 whenever the cached values
are ≥ 0; and the defensive record's fields are exactly 0.  (Negative
source or cache values are passed through unclamped, see the
counterexample.) -/
theorem statrecord_nonneg_amended :
    (∀ data e m h t, NonnegPayload data →
      parse_alfa_response data = Except.ok (ParseRes.stats e m h t) →
      NonnegVal e ∧ NonnegVal m ∧ NonnegVal h ∧ NonnegVal t) ∧
    (∀ data e m h t, NonnegPayload data →
      parse_stats_response data = Except.ok (ParseRes.stats e m h t) →
      NonnegVal e ∧ NonnegVal m ∧ NonnegVal h ∧ NonnegVal t) ∧
    (∀ data e m h t, NonnegPayload data →
      parse_faisal_response data = Except.ok (ParseRes.stats e m h t) →
      NonnegVal e ∧ NonnegVal m ∧ NonnegVal h ∧ NonnegVal t) ∧
    (∀ (u name roll : String) (year : Int) (sect : String)
      (fetch : Source → CircuitBreaker → Option ParseOutcome × CircuitBreaker)
      (cb cb' : CircuitBreaker) (now : Nat) (l : List (String × Int)),
      pyStrip u ≠ "" → pyLower (pyStrip u) ≠ "higher studies" →
      chainNone fetch API_SOURCES cb cb' →
      (∀ p ∈ l, 0 ≤ p.2) →
      0 ≤ (fetch_student_stats u name roll year sect fetch cb (some l) now).1.easy ∧
      0 ≤ (fetch_student_stats u name roll year sect fetch cb (some l) now).1.medium ∧
      0 ≤ (fetch_student_stats u name roll year sect fetch cb (some l) now).1.hard ∧
      0 ≤ (fetch_student_stats u name roll year sect fetch cb (some l) now).1.total) ∧
    (∀ (item : Item) (now : Nat),
      (defensiveRecord item now).easy = 0 ∧ (defensiveRecord item now).medium = 0 ∧
      (defensiveRecord item now).hard = 0 ∧ (defensiveRecord item now).total = 0) := by
  refine ⟨?_, ?_, ?_, ?_, ?_⟩
  · intro data e m h t hp heq
    unfold parse_alfa_response at heq
    split at heq
    all_goals simp only [Except.ok.injEq, ParseRes.stats.injEq, ParseRes.err.injEq,
      reduceCtorEq] at heq
    obtain ⟨he, hm, hh, ht⟩ := heq
    subst he hm hh ht
    exact ⟨NonnegVal_pyGetD _ _ _ NonnegVal_zero hp, NonnegVal_pyGetD _ _ _ NonnegVal_zero hp,
      NonnegVal_pyGetD _ _ _ NonnegVal_zero hp, NonnegVal_pyGetD _ _ _ NonnegVal_zero hp⟩
  · intro data e m h t hp heq
    unfold parse_stats_response at heq
    split at heq
    all_goals simp only [Except.ok.injEq, ParseRes.stats.injEq, ParseRes.err.injEq,
      reduceCtorEq] at heq
    obtain ⟨he, hm, hh, ht⟩ := heq
    subst he hm hh ht
    exact ⟨NonnegVal_pyGetD _ _ _ NonnegVal_zero hp, NonnegVal_pyGetD _ _ _ NonnegVal_zero hp,
      NonnegVal_pyGetD _ _ _ NonnegVal_zero hp, NonnegVal_pyGetD _ _ _ NonnegVal_zero hp⟩
  · intro data e m h t hp heq
    unfold parse_faisal_response at heq
    split at heq
    · simp only [Except.ok.injEq, reduceCtorEq] at heq
    · split at heq
      all_goals simp only [Except.ok.injEq, ParseRes.stats.injEq, ParseRes.err.injEq,
        reduceCtorEq] at heq
      obtain ⟨he, hm, hh, ht⟩ := heq
      subst he hm hh ht
      exact ⟨NonnegVal_pyGetD _ _ _ NonnegVal_zero hp, NonnegVal_pyGetD _ _ _ NonnegVal_zero hp,
        NonnegVal_pyGetD _ _ _ NonnegVal_zero hp,
        NonnegVal_pyGetD _ _ _ (NonnegVal_pyGetD _ _ _ NonnegVal_zero hp) hp⟩
  · intro u name roll year sect fetch cb cb' now l hu1 hu2 hchain hl
    have hex := fetch_stats_with_fallback_exhausted u fetch cb cb' hu1 hu2 hchain
    by_cases hnil : l = []
    · subst hnil
      simp only [fetch_student_stats, hex]
      simp [midAllFailed]
    · simp only [fetch_student_stats, hex]
      simp only [hnil, if_false, reduceIte]
      exact ⟨pyGetD_int_nonneg l _ hl, pyGetD_int_nonneg l _ hl,
        pyGetD_int_nonneg l _ hl, pyGetD_int_nonneg l _ hl⟩
  · intro item now
    exact ⟨rfl, rfl, rfl, rfl⟩

/-- C8, witness: a concrete nonnegative payload through the alfa parser
and a concrete nonnegative cached record through the degraded path. -/
theorem statrecord_nonneg_amended_witness :
    (NonnegVal (JValue.num 3) ∧ NonnegVal (JValue.num 0) ∧
     NonnegVal (JValue.num 0) ∧ NonnegVal (JValue.num 0)) ∧
    0 ≤ (fetch_student_stats "alice" "Alice" "R1" 2 "A" (fun _ cb => (none, cb))
        CircuitBreaker.empty (some [("easy_solved", 7)]) 42).1.easy := by
  have h := statrecord_nonneg_amended
  constructor
  · refine h.1 [("easySolved", JValue.num 3)] (JValue.num 3) (JValue.num 0)
      (JValue.num 0) (JValue.num 0) ?_ rfl
    intro p hp
    simp at hp
    subst hp
    intro n hn
    injection hn with h2
    omega
  · exact (h.2.2.2.1 "alice" "Alice" "R1" 2 "A" (fun _ cb => (none, cb))
      CircuitBreaker.empty CircuitBreaker.empty 42 [("easy_solved", 7)]
      (by decide) (by decide) ⟨rfl, rfl, rfl, rfl, rfl⟩ (by decide)).1

end LeetcodeApi
